import Mathlib

/-!
Shallow embedding of the sysmonpy repository (clisysmtr.py and sysmon.py).

The two scripts poll host metrics through psutil and the socket module,
render them to the console or to a log file, and loop on a fixed interval.
We model the external world (psutil, the socket module, the OS readings)
as an explicit environment record; each sampler becomes a pure function
from that environment to an optional value plus the messages it emits.
Exceptions that a Python expression would raise are modelled as Option
results; facts about the runtime libraries that the scripts depend on
(which attributes psutil and socket actually define) are modelled as
named boolean constants with documentation.
-/

/-- Output channel of an emitted message. Python's print writes to stdout;
nothing in either script writes to stderr. -/
inductive Chan
  | stdout
  | stderr
deriving DecidableEq, Repr

/-- Messages emitted during a call, with their channels. -/
abbrev Output := List (Chan × String)

/-- An error report as both scripts produce it: a single print, hence a
single stdout message. Messages are modelled by their fixed prefix; the
interpolated exception text is omitted. -/
def errOut (msg : String) : Output := [(Chan.stdout, msg)]

/-- Cumulative network byte counters as returned by psutil net io counters. -/
structure NetCounters where
  bytes_sent : ℕ
  bytes_recv : ℕ
deriving DecidableEq, Repr

/-- The external environment of one snapshot: which OS queries succeed and
what they would report. Byte quantities are natural numbers; percentages and
frequencies are rationals standing for the Python floats. -/
structure Env where
  /-- the outbound connect in get local ip would succeed (no network error) -/
  connect_ok : Bool
  /-- address the OS would resolve for the active local interface -/
  local_addr : String
  /-- psutil.cpu_percent succeeds -/
  cpu_percent_ok : Bool
  cpu_percent : ℚ
  /-- hasattr(psutil, "cpu_freq") on this installation -/
  has_cpu_freq : Bool
  /-- psutil.cpu_freq().current succeeds -/
  cpu_freq_ok : Bool
  cpu_freq_current : ℚ
  /-- psutil.virtual_memory succeeds -/
  vm_ok : Bool
  /-- memory sizes in bytes -/
  mem_total : ℕ
  mem_used : ℕ
  mem_available : ℕ
  mem_percent : ℚ
  /-- psutil.disk_usage("/") succeeds -/
  disk_ok : Bool
  /-- device string the author expected psutil to report -/
  disk_device : String
  /-- disk sizes in bytes -/
  disk_total : ℕ
  disk_used : ℕ
  disk_free : ℕ
  disk_percent : ℚ
  /-- both psutil.net_io_counters calls succeed -/
  net_ok : Bool
  net_before : NetCounters
  net_after : NetCounters
  /-- model string the author expected psutil.cpu_info to report -/
  cpu_model : String

/-- Python's socket module defines AF_INET and SOCK_DGRAM in upper case only;
the lowercase attribute access socket.af_inet on clisysmtr.py line 22 raises
AttributeError on every call, before any network operation happens. -/
def socket_defines_af_inet_lowercase : Bool := false

/-- psutil defines no attribute cpu_info (cpu_percent, cpu_freq, cpu_count
exist; cpu_info comes from the separate cpuinfo package), so the access
psutil.cpu_info on clisysmtr.py line 71 raises AttributeError on every call. -/
def psutil_defines_cpu_info : Bool := false

/-- The value psutil.disk_usage returns is a named tuple with fields total,
used, free, percent and no device field, so the access disk.device on
clisysmtr.py line 108 raises AttributeError on every call. -/
def psutil_diskusage_has_device : Bool := false

/-- clisysmtr.get_local_ip (lines 14 to 32): opens a UDP socket to 8.8.8.8:80
and returns the socket's own address, absorbing errors to None. Because the
lowercase socket.af_inet lookup raises AttributeError first, every call takes
the generic except branch: print the error, return None. -/
def get_local_ip (env : Env) : Option String × Output :=
  if socket_defines_af_inet_lowercase then
    if env.connect_ok then (some env.local_addr, [])
    else (none, errOut ("error getting local ip: "))
  else (none, errOut ("an unexpected error occurred: "))

/-- clisysmtr.get_cpu_usage (lines 34 to 45): psutil.cpu_percent over a one
second window, or print the error and return None. -/
def get_cpu_usage (env : Env) : Option ℚ × Output :=
  if env.cpu_percent_ok then (some env.cpu_percent, [])
  else (none, errOut ("error getting cpu usage: "))

/-- clisysmtr.get_cpu_clock (lines 47 to 61): current frequency in MHz when
psutil exposes cpu_freq, None (silently) when the attribute is missing, and
None with a printed error when the query raises. -/
def get_cpu_clock (env : Env) : Option ℚ × Output :=
  if env.has_cpu_freq then
    if env.cpu_freq_ok then (some env.cpu_freq_current, [])
    else (none, errOut ("error getting cpu clock speed: "))
  else (none, [])

/-- clisysmtr.get_cpu_name (lines 63 to 74): reads psutil.cpu_info()[0].model;
since psutil defines no cpu_info, every call raises AttributeError into the
handler: print the error, return None. -/
def get_cpu_name (env : Env) : Option String × Output :=
  if psutil_defines_cpu_info then (some env.cpu_model, [])
  else (none, errOut ("Error getting CPU name: "))

/-- clisysmtr.get_ram_usage (lines 76 to 91): one virtual_memory query giving
(total, used, percent) with byte counts divided by 1024 cubed, or three Nones
(the all-or-nothing group, modelled as one Option) with a printed error. -/
def get_ram_usage (env : Env) : Option (ℚ × ℚ × ℚ) × Output :=
  if env.vm_ok then
    (some ((env.mem_total : ℚ) / 1024 ^ 3, (env.mem_used : ℚ) / 1024 ^ 3,
           env.mem_percent), [])
  else (none, errOut ("error getting ram usage: "))

/-- clisysmtr.get_disk_usage (lines 93 to 112): disk_usage("/") then
(device, total, used, percent). Even when the query succeeds, the read of
disk.device raises AttributeError (no such field), so every call ends in the
handler: print the error, return the four-None group, modelled as none. -/
def get_disk_usage (env : Env) : Option (String × ℚ × ℚ × ℚ) × Output :=
  if env.disk_ok then
    if psutil_diskusage_has_device then
      (some (env.disk_device, (env.disk_total : ℚ) / 1024 ^ 3,
             (env.disk_used : ℚ) / 1024 ^ 3, env.disk_percent), [])
    else (none, errOut ("error getting disk usage for /: "))
  else (none, errOut ("error getting disk usage for /: "))

/-- Observable effects of the network-rate sampler: counter reads and sleeps. -/
inductive NetEffect
  | read (c : NetCounters)
  | sleep (seconds : ℕ)
deriving DecidableEq, Repr

/-- clisysmtr.get_network_activity (lines 114 to 132): read the cumulative
counters, sleep one second, read again, return the two differences as
per-second rates (Python ints, modelled as ℤ). A failing query is modelled
as failing at the first read: no trace, printed error, (None, None). -/
def get_network_activity (env : Env) :
    (Option (ℤ × ℤ)) × List NetEffect × Output :=
  if env.net_ok then
    (some ((env.net_after.bytes_sent : ℤ) - (env.net_before.bytes_sent : ℤ),
           (env.net_after.bytes_recv : ℤ) - (env.net_before.bytes_recv : ℤ)),
     [NetEffect.read env.net_before, NetEffect.sleep 1,
      NetEffect.read env.net_after], [])
  else (none, [], errOut ("error getting network activity: "))

/-- The resolved readings of one iteration of clisysmtr.display_system_info
(lines 141 to 147): one optional value or group per metric category. -/
structure Snapshot where
  ip_address : Option String
  cpu_name : Option String
  cpu_usage : Option ℚ
  cpu_clock : Option ℚ
  /-- total, used, percent -/
  ram : Option (ℚ × ℚ × ℚ)
  /-- device, total, used, percent -/
  disk : Option (String × ℚ × ℚ × ℚ)
  /-- bytes sent per second, bytes received per second -/
  net : Option (ℤ × ℤ)
deriving DecidableEq, Repr

/-- The snapshot one call of clisysmtr.display_system_info assembles: each
sampler invoked exactly once, values kept per category. -/
def buildSnapshot (env : Env) : Snapshot :=
  { ip_address := (get_local_ip env).1
    cpu_name := (get_cpu_name env).1
    cpu_usage := (get_cpu_usage env).1
    cpu_clock := (get_cpu_clock env).1
    ram := (get_ram_usage env).1
    disk := (get_disk_usage env).1
    net := (get_network_activity env).1 }

/-- Zero-padding on the left to a requested number of digits. -/
def padZeros (s : String) (k : ℕ) : String :=
  if s.length < k then String.mk (List.replicate (k - s.length) '0') ++ s
  else s

/-- Hundredths of a rational, rounded to the nearest integer with ties to
even: the exact-value rounding of Python's fixed-point format specifier,
computed on the reduced numerator and denominator so that the kernel can
evaluate it. -/
def hundredths (q : ℚ) : ℤ :=
  let n := q.num * 100
  let d := (q.den : ℤ)
  let f := Int.fdiv n d
  let r := n - f * d
  if 2 * r < d then f
  else if d < 2 * r then f + 1
  else if f % 2 = 0 then f else f + 1

/-- Python's format specifier ".2f": fixed point with two fractional digits. -/
def fmt2 (q : ℚ) : String :=
  let v := hundredths q
  let sign := if v < 0 then ("-") else ("")
  let a := v.natAbs
  sign ++ toString (a / 100) ++ (".") ++ padZeros (toString (a % 100)) 2

/-- Least number of fractional digits that writes the rational exactly in
decimal, when one exists below the float precision bound. -/
def decExp (q : ℚ) : Option ℕ :=
  (List.range 18).find? fun k => 10 ^ k % q.den = 0

/-- Python's str on a float with a finite decimal expansion: the shortest
decimal form, with at least one fractional digit. -/
def pyFloatStr (q : ℚ) : String :=
  match decExp q with
  | some k =>
    let kk := max k 1
    let m := q.num * ((10 ^ kk / q.den : ℕ) : ℤ)
    let sign := if m < 0 then ("-") else ("")
    let a := m.natAbs
    sign ++ toString (a / 10 ^ kk) ++ (".") ++ padZeros (toString (a % 10 ^ kk)) kk
  | none => toString q.num ++ ("/") ++ toString q.den

/-- Python's str applied to an optional value: None prints as "None". -/
def pyOpt (f : α → String) : Option α → String
  | some a => f a
  | none => "None"

/-- Console line for the local IP (clisysmtr lines 149 to 152). The source
tests the Python truthiness of the value, so None and the empty string both
select the failure line. -/
def ipLine : Option String → String
  | some a => if a = "" then "failed to retrieve local ip address."
              else "local ip address: " ++ a
  | none => "failed to retrieve local ip address."

/-- Console line for the CPU name (lines 154 to 157), truthiness test. -/
def cpuNameLine : Option String → String
  | some a => if a = "" then "failed to retrieve cpu name."
              else "cpu name: " ++ a
  | none => "failed to retrieve cpu name."

/-- Console line for CPU usage (lines 159 to 162), is-not-None test. -/
def cpuUsageLine : Option ℚ → String
  | some u => "cpu usage: " ++ pyFloatStr u ++ ("%")
  | none => "failed to retrieve cpu usage."

/-- Console line for the CPU clock (lines 164 to 167), is-not-None test. -/
def cpuClockLine : Option ℚ → String
  | some c => "cpu clock speed: " ++ fmt2 c ++ (" mhz")
  | none => "cpu clock speed: not supported or failed to retrieve."

/-- Console line for RAM (lines 169 to 172): used then total then percent,
each with the ".2f" format; the three is-not-None tests collapse onto the
single all-or-nothing group. -/
def ramLine : Option (ℚ × ℚ × ℚ) → String
  | some (total, used, percent) =>
      "ram: " ++ fmt2 used ++ " gb / " ++ fmt2 total ++ " gb (" ++
        fmt2 percent ++ ("%)")
  | none => "failed to retrieve ram usage."

/-- Console line for the disk (lines 174 to 177). The source tests the
truthiness of all four components, so a populated group with a zero number
or empty device string also selects the failure line. -/
def diskLine : Option (String × ℚ × ℚ × ℚ) → String
  | some (device, total, used, percent) =>
      if device ≠ "" ∧ total ≠ 0 ∧ used ≠ 0 ∧ percent ≠ 0 then
        "disk drive (" ++ device ++ "): " ++ fmt2 used ++ " gb / " ++
          fmt2 total ++ " gb (" ++ fmt2 percent ++ ("%)")
      else "failed to retrieve disk usage."
  | none => "failed to retrieve disk usage."

/-- Console line for network activity (lines 179 to 182), is-not-None tests
on both components of the pair. -/
def netLine : Option (ℤ × ℤ) → String
  | some (s, r) =>
      "network activity: sent: " ++ toString s ++ " bytes/s, received: " ++
        toString r ++ (" bytes/s")
  | none => "failed to retrieve network activity."

/-- The console rendering of clisysmtr.display_system_info (lines 149 to
182): exactly one line per metric category, in the source's order. -/
def consoleLines (s : Snapshot) : List String :=
  [ipLine s.ip_address, cpuNameLine s.cpu_name, cpuUsageLine s.cpu_usage,
   cpuClockLine s.cpu_clock, ramLine s.ram, diskLine s.disk, netLine s.net]

/-- The log entry f-string of clisysmtr.display_system_info (lines 186 to
192). The interpolations ram_total, ram_used, ram_percent, disk_total,
disk_used, disk_percent carry the ".2f" specifier, and Python raises
TypeError when that specifier is applied to None; the plain interpolations
print None as "None". The raise is modelled as none. -/
def buildLogEntry (timestamp : String) (s : Snapshot) : Option String :=
  match s.ram, s.disk with
  | some (rt, ru, rp), some (dd, dt, du, dp) =>
      some (timestamp ++ ", ip: " ++ pyOpt id s.ip_address ++ ", cpu_name: " ++
        pyOpt id s.cpu_name ++ ", cpu_usage: " ++ pyOpt pyFloatStr s.cpu_usage ++
        "%, cpu_clock: " ++ pyOpt pyFloatStr s.cpu_clock ++ ", ram_total: " ++
        fmt2 rt ++ "gb, ram_used: " ++ fmt2 ru ++ "gb, ram_percent: " ++
        fmt2 rp ++ "%, disk_device: " ++ dd ++ ", disk_total: " ++ fmt2 dt ++
        "gb, disk_used: " ++ fmt2 du ++ "gb, disk_percent: " ++ fmt2 dp ++
        "%, bytes_sent: " ++ pyOpt (fun p => toString p.1) s.net ++
        ", bytes_recv: " ++ pyOpt (fun p => toString p.2) s.net ++ ("\n"))
  | _, _ => none

/-- Outcome of the logging tail of display_system_info (lines 184 to 197). -/
inductive LogOutcome
  /-- args.log is absent (or empty): no logging attempted -/
  | notLogging
  /-- entry built and appended to the file -/
  | wrote (entry : String)
  /-- entry built, the append raised, the handler printed the error -/
  | appendFailed
  /-- building the entry raised TypeError, escaping display_system_info -/
  | formatError
deriving DecidableEq, Repr

/-- The logging tail of clisysmtr.display_system_info (lines 184 to 197):
build the entry string, then append it inside a try whose handler prints
the write error. Only the append is guarded; the TypeError from formatting
a None group is raised before the try and escapes the function. -/
def displayLog (logArg : Option String) (appendOk : Bool)
    (timestamp : String) (s : Snapshot) : LogOutcome :=
  match logArg with
  | none => LogOutcome.notLogging
  | some p =>
    if p = "" then LogOutcome.notLogging
    else
      match buildLogEntry timestamp s with
      | none => LogOutcome.formatError
      | some entry =>
          if appendOk then LogOutcome.wrote entry else LogOutcome.appendFailed

/-- The nine readings of sysmon.get_system_usage on success. -/
structure SysUsage where
  cpu_usage : ℚ
  mem_usage : ℚ
  ram_total : ℚ
  ram_available : ℚ
  bytes_sent_rate : ℤ
  bytes_recv_rate : ℤ
  disk_total : ℚ
  disk_used : ℚ
  disk_free : ℚ
deriving DecidableEq, Repr

/-- sysmon.get_system_usage (lines 5 to 49): a single try block spans the
CPU, memory, network and disk queries, and its handler returns nine Nones.
Any failure therefore blanks every category at once; the all-None result is
modelled as none, a success as the full record. -/
def get_system_usage (env : Env) : Option SysUsage × Output :=
  if env.cpu_percent_ok && env.vm_ok && env.net_ok && env.disk_ok then
    (some { cpu_usage := env.cpu_percent
            mem_usage := env.mem_percent
            ram_total := (env.mem_total : ℚ) / 1024 ^ 3
            ram_available := (env.mem_available : ℚ) / 1024 ^ 3
            bytes_sent_rate :=
              (env.net_after.bytes_sent : ℤ) - (env.net_before.bytes_sent : ℤ)
            bytes_recv_rate :=
              (env.net_after.bytes_recv : ℤ) - (env.net_before.bytes_recv : ℤ)
            disk_total := (env.disk_total : ℚ) / 1024 ^ 3
            disk_used := (env.disk_used : ℚ) / 1024 ^ 3
            disk_free := (env.disk_free : ℚ) / 1024 ^ 3 }, [])
  else (none, errOut ("Error getting system usage: "))

/-- What happens inside one loop iteration, as seen by the loop driver:
the body runs to completion, or KeyboardInterrupt arrives, or some other
exception escapes the body. -/
inductive IterEvent
  | completes
  | interrupt
  | raises
deriving DecidableEq, Repr

/-- clisysmtr.main's continuous loop (lines 255 to 265), run against a list
of iteration events: completed iterations recur; KeyboardInterrupt is caught,
a message printed, and main returns (process exit code 0); any other
exception is caught and answered with sys.exit(1). The result pairs the
number of display_system_info invocations with the exit code, none meaning
the loop is still running when the events run out. -/
def clisysmtr_loop : List IterEvent → ℕ × Option ℕ
  | [] => (0, none)
  | IterEvent.completes :: rest =>
      ((clisysmtr_loop rest).1 + 1, (clisysmtr_loop rest).2)
  | IterEvent.interrupt :: _ => (1, some 0)
  | IterEvent.raises :: _ => (1, some 1)

/-- clisysmtr.main (lines 249 to 265): with --no-loop, one call of
display_system_info and a normal return (exit 0) unless that call raises,
in which case the exception is uncaught and the interpreter exits 1;
without the flag, the continuous loop. The first event describes the
single call in no-loop mode. -/
def clisysmtr_main (no_loop : Bool) (events : List IterEvent) : ℕ × Option ℕ :=
  if no_loop then
    match events.headD IterEvent.completes with
    | IterEvent.completes => (1, some 0)
    | IterEvent.interrupt => (1, some 1)
    | IterEvent.raises => (1, some 1)
  else clisysmtr_loop events

/-- sysmon.monitor_system's loop (lines 102 to 109): KeyboardInterrupt and
any other exception are both caught with only a print, after which the
function returns normally, so the process exits 0 on either path. -/
def sysmon_monitor : List IterEvent → ℕ × Option ℕ
  | [] => (0, none)
  | IterEvent.completes :: rest =>
      ((sysmon_monitor rest).1 + 1, (sysmon_monitor rest).2)
  | IterEvent.interrupt :: _ => (1, some 0)
  | IterEvent.raises :: _ => (1, some 0)

/-- An environment in which every OS query succeeds, with the readings used
by the spec's worked examples: 16 GiB of RAM half used, network counters
advancing by 500 sent and 600 received bytes over the window. -/
def envBase : Env :=
  { connect_ok := true
    local_addr := "192.168.1.5"
    cpu_percent_ok := true
    cpu_percent := 10
    has_cpu_freq := true
    cpu_freq_ok := true
    cpu_freq_current := 2400
    vm_ok := true
    mem_total := 17179869184
    mem_used := 8589934592
    mem_available := 8589934592
    mem_percent := 50
    disk_ok := true
    disk_device := "/dev/sda1"
    disk_total := 107374182400
    disk_used := 42949672960
    disk_free := 64424509440
    disk_percent := 40
    net_ok := true
    net_before := ⟨1000, 2000⟩
    net_after := ⟨1500, 2600⟩
    cpu_model := "TestCPU" }

/-- envBase with the disk query failing and every other query succeeding. -/
def envDiskFail : Env := { envBase with disk_ok := false }

/-- envBase with the cpu percent query failing. -/
def envCpuFail : Env := { envBase with cpu_percent_ok := false }

/-- A snapshot with every category populated and no zero values. -/
def snapFull : Snapshot :=
  { ip_address := some ("192.168.1.5")
    cpu_name := some ("TestCPU")
    cpu_usage := some 10
    cpu_clock := some 2400
    ram := some (16, 8, 50)
    disk := some ("/dev/sda1", 100, 40, 40)
    net := some (500, 600) }

/-- snapFull with the RAM group absent. -/
def snapNoRam : Snapshot := { snapFull with ram := none }

/-- A snapshot with every category populated whose disk used and percent
are the boundary value 0.0. -/
def snapBoundary : Snapshot :=
  { snapFull with disk := some ("/dev/sda1", 100, 0, 0) }

/-- The value component of get_local_ip: None on every call, since the
lowercase socket attribute lookup raises before any network operation. -/
theorem get_local_ip_val (env : Env) : (get_local_ip env).1 = none := rfl

/-- The value component of get_cpu_usage depends only on the cpu query. -/
theorem get_cpu_usage_val (env : Env) :
    (get_cpu_usage env).1 =
      if env.cpu_percent_ok then some env.cpu_percent else none := by
  cases h : env.cpu_percent_ok <;> simp [get_cpu_usage, h]

/-- The value component of get_cpu_clock depends only on the clock query. -/
theorem get_cpu_clock_val (env : Env) :
    (get_cpu_clock env).1 =
      if env.has_cpu_freq then
        (if env.cpu_freq_ok then some env.cpu_freq_current else none)
      else none := by
  cases h1 : env.has_cpu_freq <;> cases h2 : env.cpu_freq_ok <;>
    simp [get_cpu_clock, h1, h2]

/-- The value component of get_cpu_name: None on every call, since psutil
defines no cpu_info attribute. -/
theorem get_cpu_name_val (env : Env) : (get_cpu_name env).1 = none := rfl

/-- The value component of get_ram_usage depends only on the memory query. -/
theorem get_ram_usage_val (env : Env) :
    (get_ram_usage env).1 =
      if env.vm_ok then
        some ((env.mem_total : ℚ) / 1024 ^ 3, (env.mem_used : ℚ) / 1024 ^ 3,
          env.mem_percent)
      else none := by
  cases h : env.vm_ok <;> simp [get_ram_usage, h]

/-- The value component of get_disk_usage: None on every call, since the
psutil disk usage record has no device field. -/
theorem get_disk_usage_val (env : Env) : (get_disk_usage env).1 = none := by
  cases h : env.disk_ok <;>
    simp [get_disk_usage, psutil_diskusage_has_device, h]

/-- The value component of get_network_activity depends only on the two
counter reads. -/
theorem get_network_activity_val (env : Env) :
    (get_network_activity env).1 =
      if env.net_ok then
        some ((env.net_after.bytes_sent : ℤ) - (env.net_before.bytes_sent : ℤ),
          (env.net_after.bytes_recv : ℤ) - (env.net_before.bytes_recv : ℤ))
      else none := by
  cases h : env.net_ok <;> simp [get_network_activity, h]

/-- The value component of sysmon's get_system_usage: populated exactly when
all four OS queries of its single try block succeed. -/
theorem get_system_usage_val (env : Env) :
    (get_system_usage env).1 =
      if env.cpu_percent_ok && env.vm_ok && env.net_ok && env.disk_ok then
        some { cpu_usage := env.cpu_percent, mem_usage := env.mem_percent,
               ram_total := (env.mem_total : ℚ) / 1024 ^ 3,
               ram_available := (env.mem_available : ℚ) / 1024 ^ 3,
               bytes_sent_rate :=
                 (env.net_after.bytes_sent : ℤ) - (env.net_before.bytes_sent : ℤ),
               bytes_recv_rate :=
                 (env.net_after.bytes_recv : ℤ) - (env.net_before.bytes_recv : ℤ),
               disk_total := (env.disk_total : ℚ) / 1024 ^ 3,
               disk_used := (env.disk_used : ℚ) / 1024 ^ 3,
               disk_free := (env.disk_free : ℚ) / 1024 ^ 3 }
      else none := by
  cases h : (env.cpu_percent_ok && env.vm_ok && env.net_ok && env.disk_ok) <;>
    simp [get_system_usage, h]

/-- A log entry cannot be built for a snapshot whose disk group is absent:
the ".2f" interpolations of the disk fields raise TypeError on None. -/
theorem buildLogEntry_no_disk (ts : String) (s : Snapshot)
    (hd : s.disk = none) : buildLogEntry ts s = none := by
  rcases s with ⟨ip, cn, cu, cc, ram, disk, net⟩
  simp only at hd
  subst hd
  rcases ram with _ | ⟨⟨rt, ru, rp⟩⟩ <;> rfl

/-- For the continuous clisysmtr loop, an iteration that raises ends the
process with exit code 1, after any number of completed iterations. -/
theorem clisysmtr_loop_raises (n : ℕ) :
    (clisysmtr_loop
      (List.replicate n IterEvent.completes ++ [IterEvent.raises])).2
      = some 1 := by
  induction n with
  | zero => rfl
  | succ k ih => simpa [List.replicate_succ, clisysmtr_loop] using ih

/-- For the continuous clisysmtr loop, a user interrupt ends the process
with exit code 0, after any number of completed iterations. -/
theorem clisysmtr_loop_interrupt (n : ℕ) :
    (clisysmtr_loop
      (List.replicate n IterEvent.completes ++ [IterEvent.interrupt])).2
      = some 0 := by
  induction n with
  | zero => rfl
  | succ k ih => simpa [List.replicate_succ, clisysmtr_loop] using ih

/-- For the sysmon loop, an iteration that raises still ends the process
with exit code 0, after any number of completed iterations. -/
theorem sysmon_monitor_raises (n : ℕ) :
    (sysmon_monitor
      (List.replicate n IterEvent.completes ++ [IterEvent.raises])).2
      = some 0 := by
  induction n with
  | zero => rfl
  | succ k ih => simpa [List.replicate_succ, sysmon_monitor] using ih

/-- For the sysmon loop, a user interrupt ends the process with exit code 0,
after any number of completed iterations. -/
theorem sysmon_monitor_interrupt (n : ℕ) :
    (sysmon_monitor
      (List.replicate n IterEvent.completes ++ [IterEvent.interrupt])).2
      = some 0 := by
  induction n with
  | zero => rfl
  | succ k ih => simpa [List.replicate_succ, sysmon_monitor] using ih

/-- C1 counterexample: in sysmon's snapshot build (get_system_usage), a
disk acquisition failure with every other query succeeding blanks every
category at once, cpu included, instead of exactly the disk category:
envDiskFail fails only the disk query, yet the result carries no populated
field, while the all-succeeding envBase yields a populated result. -/
theorem C1_counterexample :
    envDiskFail.cpu_percent_ok = true ∧ envDiskFail.disk_ok = false ∧
    (get_system_usage envDiskFail).1 = none ∧
    (get_system_usage envBase).1.isSome = true :=
  ⟨rfl, rfl, rfl, rfl⟩

/-- C1 amended: in clisysmtr's snapshot build, each category's presence
depends only on its own sampler's queries and no sampling failure aborts the
build, though the local-IP, CPU-name and disk categories are unconditionally
absent (socket.af_inet, psutil.cpu_info and the device field do not exist);
in sysmon's get_system_usage all nine fields share a single failure scope,
so any sampling failure yields the absence marker for all of them (also
without raising). -/
theorem C1_independent_categories (env : Env) :
    (buildSnapshot env).ip_address = none ∧
    (buildSnapshot env).cpu_name = none ∧
    (buildSnapshot env).disk = none ∧
    (buildSnapshot env).cpu_usage =
      (if env.cpu_percent_ok then some env.cpu_percent else none) ∧
    (buildSnapshot env).cpu_clock =
      (if env.has_cpu_freq then
        (if env.cpu_freq_ok then some env.cpu_freq_current else none)
       else none) ∧
    (buildSnapshot env).ram =
      (if env.vm_ok then
        some ((env.mem_total : ℚ) / 1024 ^ 3, (env.mem_used : ℚ) / 1024 ^ 3,
          env.mem_percent)
       else none) ∧
    (buildSnapshot env).net =
      (if env.net_ok then
        some ((env.net_after.bytes_sent : ℤ) - (env.net_before.bytes_sent : ℤ),
          (env.net_after.bytes_recv : ℤ) - (env.net_before.bytes_recv : ℤ))
       else none) ∧
    (get_system_usage env).1.isSome =
      (env.cpu_percent_ok && env.vm_ok && env.net_ok && env.disk_ok) := by
  refine ⟨get_local_ip_val env, get_cpu_name_val env, get_disk_usage_val env,
    get_cpu_usage_val env, get_cpu_clock_val env, get_ram_usage_val env,
    get_network_activity_val env, ?_⟩
  cases h : (env.cpu_percent_ok && env.vm_ok && env.net_ok && env.disk_ok) <;>
    simp [get_system_usage, h]

/-- C2 (code bug): console rendering of resolved values is a total function
and never raises, and an append failure is caught (appendFailed, the loop
continues); but log-mode rendering of a snapshot with an absent float group
raises TypeError (the ".2f" specifier on None), modelled as formatError,
which escapes display_system_info and aborts the iteration. Moreover every
snapshot clisysmtr actually builds has an absent disk group (the device
attribute bug), so in log mode every iteration raises. -/
theorem C2_log_format_raises :
    displayLog (some ("usage.log")) true ("t0") snapNoRam
      = LogOutcome.formatError ∧
    displayLog (some ("usage.log")) false ("t0") snapFull
      = LogOutcome.appendFailed ∧
    (∀ env : Env, ∀ ok : Bool, ∀ ts : String,
      displayLog (some ("usage.log")) ok ts (buildSnapshot env)
        = LogOutcome.formatError) := by
  refine ⟨rfl, by decide, ?_⟩
  intro env ok ts
  have he := buildLogEntry_no_disk ts (buildSnapshot env) (get_disk_usage_val env)
  simp [displayLog, he]

/-- C3 counterexample: in the sysmon variant, an unexpected error during the
first loop iteration leaves the process with exit code 0, not the non-zero
code the claim requires. -/
theorem C3_counterexample :
    sysmon_monitor [IterEvent.raises] = (1, some 0) ∧
    (some 0 : Option ℕ) ≠ some 1 := by
  exact ⟨rfl, by decide⟩

/-- C3 amended: clisysmtr exits 0 on normal one-shot completion and on user
interrupt and exits 1 on an unexpected loop error; the sysmon variant exits
0 on user interrupt but also exits 0 on an unexpected loop error, which its
handler only reports before returning normally. -/
theorem C3_exit_codes (n : ℕ) :
    (clisysmtr_main false
      (List.replicate n IterEvent.completes ++ [IterEvent.raises])).2
      = some 1 ∧
    (clisysmtr_main false
      (List.replicate n IterEvent.completes ++ [IterEvent.interrupt])).2
      = some 0 ∧
    clisysmtr_main true (IterEvent.completes :: List.replicate n IterEvent.completes)
      = (1, some 0) ∧
    (sysmon_monitor
      (List.replicate n IterEvent.completes ++ [IterEvent.raises])).2
      = some 0 ∧
    (sysmon_monitor
      (List.replicate n IterEvent.completes ++ [IterEvent.interrupt])).2
      = some 0 :=
  ⟨clisysmtr_loop_raises n, clisysmtr_loop_interrupt n, rfl,
   sysmon_monitor_raises n, sysmon_monitor_interrupt n⟩

/-- C4 counterexample: for the RAM reading total=16, used=8, percent=50 the
console renderer emits the lowercase line, which differs character for
character from the capitalized line the claim asserts. -/
theorem C4_counterexample :
    ramLine (some (16, 8, 50)) = "ram: 8.00 gb / 16.00 gb (50.00%)" ∧
    ramLine (some (16, 8, 50)) ≠ "RAM: 8.00 GB / 16.00 GB (50.00%)" := by
  exact ⟨rfl, by decide⟩

/-- C4 amended: the RAM category's console line is the fifth line of every
rendering, and for total=16, used=8, percent=50 it reads exactly
the lowercase "ram: 8.00 gb / 16.00 gb (50.00%)". -/
theorem C4_ram_line :
    (∀ s : Snapshot, (consoleLines s)[4]? = some (ramLine s.ram)) ∧
    ramLine (some (16, 8, 50)) = "ram: 8.00 gb / 16.00 gb (50.00%)" :=
  ⟨fun _ => rfl, rfl⟩

/-- C5 (code bug): snapBoundary has every field group present, with the disk
used and percent values at the boundary 0.0; because the source tests the
disk fields with Python truthiness rather than is-not-None, the renderer
substitutes the disk failure line for this populated category, while the
same snapshot with non-zero disk numbers gets its value line. Rendering is
always exactly one line per category in the source's fixed order. -/
theorem C5_boundary_truthiness :
    snapBoundary.disk = some ("/dev/sda1", 100, 0, 0) ∧
    (consoleLines snapBoundary)[5]? = some ("failed to retrieve disk usage.") ∧
    (consoleLines snapFull)[5]? =
      some ("disk drive (/dev/sda1): 40.00 gb / 100.00 gb (40.00%)") ∧
    (∀ s : Snapshot, consoleLines s =
      [ipLine s.ip_address, cpuNameLine s.cpu_name, cpuUsageLine s.cpu_usage,
       cpuClockLine s.cpu_clock, ramLine s.ram, diskLine s.disk,
       netLine s.net]) := by
  exact ⟨rfl, by decide, by decide, fun _ => rfl⟩

/-- C6: the network-rate sampler reads the cumulative counters, sleeps one
second, reads them again, and returns the differences (after minus before)
for sent and received bytes as the per-second rates. -/
theorem C6_network_rate (env : Env) (h : env.net_ok = true) :
    get_network_activity env =
      (some ((env.net_after.bytes_sent : ℤ) - (env.net_before.bytes_sent : ℤ),
             (env.net_after.bytes_recv : ℤ) - (env.net_before.bytes_recv : ℤ)),
       [NetEffect.read env.net_before, NetEffect.sleep 1,
        NetEffect.read env.net_after], []) := by
  simp [get_network_activity, h]

/-- C6 witness: for counters sent 1000 to 1500 and received 2000 to 2600
across the one-second window, the rates are 500 and 600 bytes per second. -/
theorem C6_network_rate_witness :
    get_network_activity envBase =
      (some (500, 600),
       [NetEffect.read ⟨1000, 2000⟩, NetEffect.sleep 1,
        NetEffect.read ⟨1500, 2600⟩], []) := by
  have h := C6_network_rate envBase rfl
  exact h.trans (by decide)

/-- C7 (code bug): the local-IP sampler returns the absence marker even when
no network error would occur (envBase.connect_ok), because the lowercase
socket.af_inet attribute lookup raises AttributeError on every call; the
generic handler prints the error and returns None. -/
theorem C7_local_ip_always_absent :
    envBase.connect_ok = true ∧
    (get_local_ip envBase).1 = none ∧
    (get_local_ip envBase).2 = errOut ("an unexpected error occurred: ") :=
  ⟨rfl, rfl, rfl⟩

/-- C8 counterexample: a failing cpu-usage acquisition writes its failure
reason to standard output, not standard error, refuting the claimed channel
at a concrete input. -/
theorem C8_counterexample :
    (get_cpu_usage envCpuFail).1 = none ∧
    (get_cpu_usage envCpuFail).2 = [(Chan.stdout, "error getting cpu usage: ")] ∧
    Chan.stdout ≠ Chan.stderr := by
  exact ⟨rfl, rfl, by decide⟩

/-- C8 amended: for every metric sampler, when acquisition fails the failure
reason is printed to standard output (both scripts report with print, which
writes to stdout) at the point of failure, and the sampler returns the
absence marker instead of raising. -/
theorem C8_failure_reporting (env : Env) :
    (get_local_ip env).2 = errOut ("an unexpected error occurred: ") ∧
    (get_cpu_usage env).2 =
      (if env.cpu_percent_ok then [] else errOut ("error getting cpu usage: ")) ∧
    (get_cpu_clock env).2 =
      (if env.has_cpu_freq then
        (if env.cpu_freq_ok then []
         else errOut ("error getting cpu clock speed: "))
       else []) ∧
    (get_cpu_name env).2 = errOut ("Error getting CPU name: ") ∧
    (get_ram_usage env).2 =
      (if env.vm_ok then [] else errOut ("error getting ram usage: ")) ∧
    (get_disk_usage env).2 = errOut ("error getting disk usage for /: ") ∧
    (get_network_activity env).2.2 =
      (if env.net_ok then [] else errOut ("error getting network activity: ")) ∧
    (get_system_usage env).2 =
      (if env.cpu_percent_ok && env.vm_ok && env.net_ok && env.disk_ok then []
       else errOut ("Error getting system usage: ")) ∧
    (∀ msg : String, errOut msg = [(Chan.stdout, msg)]) ∧
    Chan.stdout ≠ Chan.stderr ∧
    (get_local_ip env).1 = none ∧
    (get_cpu_usage env).1.isSome = env.cpu_percent_ok ∧
    (get_cpu_name env).1 = none ∧
    (get_ram_usage env).1.isSome = env.vm_ok ∧
    (get_disk_usage env).1 = none ∧
    (get_network_activity env).1.isSome = env.net_ok ∧
    (get_system_usage env).1.isSome =
      (env.cpu_percent_ok && env.vm_ok && env.net_ok && env.disk_ok) := by
  refine ⟨rfl, ?_, ?_, rfl, ?_, ?_, ?_, ?_, fun _ => rfl, by decide,
    get_local_ip_val env, ?_, get_cpu_name_val env, ?_, get_disk_usage_val env,
    ?_, ?_⟩
  · cases h : env.cpu_percent_ok <;> simp [get_cpu_usage, h]
  · cases h1 : env.has_cpu_freq <;> cases h2 : env.cpu_freq_ok <;>
      simp [get_cpu_clock, h1, h2]
  · cases h : env.vm_ok <;> simp [get_ram_usage, h]
  · cases h : env.disk_ok <;>
      simp [get_disk_usage, psutil_diskusage_has_device, h]
  · cases h : env.net_ok <;> simp [get_network_activity, h]
  · cases h : (env.cpu_percent_ok && env.vm_ok && env.net_ok && env.disk_ok) <;>
      simp [get_system_usage, h]
  · cases h : env.cpu_percent_ok <;> simp [get_cpu_usage, h]
  · cases h : env.vm_ok <;> simp [get_ram_usage, h]
  · cases h : env.net_ok <;> simp [get_network_activity, h]
  · cases h : (env.cpu_percent_ok && env.vm_ok && env.net_ok && env.disk_ok) <;>
      simp [get_system_usage, h]

/-- C9 counterexample: a no-loop invocation whose single iteration raises
exits with code 1, not 0 — and that case is reachable: combining --no-loop
with --log makes the iteration raise on every environment, because the
always-absent disk group turns the log formatting into a TypeError (shown
here at envBase, where every OS query succeeds). -/
theorem C9_counterexample :
    clisysmtr_main true [IterEvent.raises] = (1, some 1) ∧
    (some 1 : Option ℕ) ≠ some 0 ∧
    displayLog (some ("usage.log")) true ("t0") (buildSnapshot envBase)
      = LogOutcome.formatError := by
  refine ⟨rfl, by decide, ?_⟩
  have he := buildLogEntry_no_disk ("t0") (buildSnapshot envBase)
    (get_disk_usage_val envBase)
  simp [displayLog, he]

/-- C9 amended: with the no-loop flag the program invokes the sampling and
reporting pipeline exactly once whatever happens inside that iteration, and
within the single invocation the snapshot builder calls each sampler exactly
once, one field per sampler; it then terminates with exit code 0 when the
iteration completes (as in console-only mode), but with exit code 1 when the
iteration raises (which log mode always does). -/
theorem C9_oneshot_exit :
    (∀ e : IterEvent, ∀ rest : List IterEvent,
      (clisysmtr_main true (e :: rest)).1 = 1) ∧
    (∀ rest : List IterEvent,
      clisysmtr_main true (IterEvent.completes :: rest) = (1, some 0)) ∧
    (∀ rest : List IterEvent,
      clisysmtr_main true (IterEvent.raises :: rest) = (1, some 1)) ∧
    (∀ env : Env, buildSnapshot env =
      { ip_address := (get_local_ip env).1, cpu_name := (get_cpu_name env).1,
        cpu_usage := (get_cpu_usage env).1, cpu_clock := (get_cpu_clock env).1,
        ram := (get_ram_usage env).1, disk := (get_disk_usage env).1,
        net := (get_network_activity env).1 }) :=
  ⟨fun e _ => by cases e <;> rfl, fun _ => rfl, fun _ => rfl, fun _ => rfl⟩

/-- C10: get_cpu_name returns the absence marker on every execution, because
psutil defines no cpu_info attribute and the call raises into the catch-all
handler; consequently the console rendering of every snapshot the program
builds carries the CPU-name failure line in the CPU-name position. -/
theorem C10_cpu_name_always_absent :
    (∀ env : Env, (get_cpu_name env).1 = none) ∧
    (∀ env : Env, (consoleLines (buildSnapshot env))[1]? =
      some ("failed to retrieve cpu name.")) :=
  ⟨fun _ => rfl, fun _ => rfl⟩
